import Mathlib

/-!
Shallow embedding of `restore-exif.py` (whatsapp-media-tools).

External collaborators (exiftool, exiv2, ffmpeg, the filesystem, the Immich
HTTP API) are modelled as oracle inputs carried by an `Env` record; the
script's own control flow, string processing and date arithmetic are
translated directly from the Python source.  Python `datetime` values are
modelled by the `DateTime` structure below; machine-level concerns do not
arise (all arithmetic is small Nat arithmetic).
-/

namespace RestoreExif

/-- Python `datetime.datetime` restricted to the fields the script uses. -/
structure DateTime where
  year : Nat
  month : Nat
  day : Nat
  hour : Nat
  minute : Nat
  second : Nat
deriving DecidableEq, Repr

/-- Lexicographic strict comparison, as Python compares `datetime` values. -/
def dtLt (a b : DateTime) : Bool :=
  if a.year ≠ b.year then decide (a.year < b.year)
  else if a.month ≠ b.month then decide (a.month < b.month)
  else if a.day ≠ b.day then decide (a.day < b.day)
  else if a.hour ≠ b.hour then decide (a.hour < b.hour)
  else if a.minute ≠ b.minute then decide (a.minute < b.minute)
  else decide (a.second < b.second)

/-- Lexicographic `<=` on Python `datetime` values. -/
def dtLe (a b : DateTime) : Bool :=
  dtLt a b || a == b

/-- Index of the last character satisfying `p` (Python `str.rfind`). -/
def rlastIdx (cs : List Char) (p : Char → Bool) : Option Nat :=
  match cs with
  | [] => none
  | c :: rest =>
    match rlastIdx rest p with
    | some i => some (i + 1)
    | none => if p c then some 0 else none

/-- `os.path.splitext` (posixpath): split at the last dot that comes after the
last `/` and after at least one non-dot character of the basename. -/
def splitext (s : String) : String × String :=
  let cs := s.data
  match rlastIdx cs (fun c => c == '.') with
  | none => (s, "")
  | some di =>
    let start := match rlastIdx cs (fun c => c == '/') with
      | none => 0
      | some si => si + 1
    if start ≤ di && ((cs.take di).drop start).any (fun c => c ≠ '.') then
      (⟨cs.take di⟩, ⟨cs.drop di⟩)
    else (s, "")

/-- ASCII lowercase of one character (`str.lower` restricted to ASCII,
which covers every extension the script ever compares). -/
def asciiLower (c : Char) : Char :=
  if 'A' ≤ c ∧ c ≤ 'Z' then Char.ofNat (c.toNat + 32) else c

/-- `normalize_extension`: ensure a leading dot, then lowercase. -/
def normalize_extension (ext : String) : String :=
  let e := if ext.data.head? = some '.' then ext else "." ++ ext
  ⟨e.data.map asciiLower⟩

/-- `PHOTO_EXTENSIONS` (the Python set is modelled as a list; only
membership is ever used). -/
def PHOTO_EXTENSIONS : List String := [".jpg", ".jpeg", ".png", ".gif", ".webp"]

/-- `VIDEO_EXTENSIONS`. -/
def VIDEO_EXTENSIONS : List String :=
  [".mp4", ".3gp", ".mov", ".avi", ".mkv", ".flv", ".wmv", ".webm"]

/-- `SUPPORTED_EXTENSIONS = PHOTO_EXTENSIONS | VIDEO_EXTENSIONS`. -/
def SUPPORTED_EXTENSIONS : List String := PHOTO_EXTENSIONS ++ VIDEO_EXTENSIONS

/-- `filter_filepaths`: keep the `(dir, name)` pairs whose normalized
extension is in the allowed set. -/
def filter_filepaths (filepaths : List (String × String)) (allowed_ext : List String) :
    List (String × String) :=
  filepaths.filter (fun p => normalize_extension (splitext p.2).2 ∈ allowed_ext)

/-- `os.path.join` for the two-argument posix case used by `main`. -/
def pathJoin (a b : String) : String :=
  if b.data.head? = some '/' then b
  else if a = "" ∨ a.data.getLast? = some '/' then a ++ b
  else a ++ "/" ++ b

/-! ## Filename date parser (`get_datetime`)

Each regex of the source is a concrete pattern with fixed-length pieces, so
`re.search` is modelled as trying an exact matcher at every start position,
leftmost first.  `\d` is modelled as an ASCII digit (every filename the
claims quantify over is ASCII). -/

/-- Match a literal character sequence, returning the rest of the input. -/
def dropLit (lit : List Char) (cs : List Char) : Option (List Char) :=
  match lit, cs with
  | [], rest => some rest
  | _ :: _, [] => none
  | l :: ls, c :: rest => if c == l then dropLit ls rest else none

/-- Take exactly `n` ASCII digits (`\d{n}`). -/
def takeDigits (n : Nat) (cs : List Char) : Option (List Char × List Char) :=
  match n, cs with
  | 0, rest => some ([], rest)
  | _ + 1, [] => none
  | n + 1, c :: rest =>
    if c.isDigit then (takeDigits n rest).map (fun p => (c :: p.1, p.2)) else none

/-- `re.search`: try the position matcher on every suffix, leftmost first
(including the empty suffix, as Python does). -/
def searchAux {α : Type} (matchAt : List Char → Option α) : List Char → Option α
  | [] => matchAt []
  | c :: cs =>
    match matchAt (c :: cs) with
    | some r => some r
    | none => searchAux matchAt cs

/-- Gregorian leap year, as Python's `calendar`/`datetime` define it. -/
def isLeapYear (y : Nat) : Bool :=
  y % 4 == 0 && (y % 100 != 0 || y % 400 == 0)

/-- Length of a month, as `datetime` validates the day field. -/
def daysInMonth (y m : Nat) : Nat :=
  if m = 2 then (if isLeapYear y then 29 else 28)
  else if m = 4 ∨ m = 6 ∨ m = 9 ∨ m = 11 then 30
  else 31

/-- Numeric value of an ASCII digit character. -/
def charVal (c : Char) : Nat := c.toNat - 48

/-- Value of a two-digit field. -/
def val2 (a b : Char) : Nat := charVal a * 10 + charVal b

/-- Value of a four-digit field. -/
def val4 (a b c d : Char) : Nat := ((charVal a * 10 + charVal b) * 10 + charVal c) * 10 + charVal d

/-- The `datetime` constructor (the final step of `strptime`): `none` is a
`ValueError`.  The field ranges combine the CPython `_strptime` component
regexes (month `01..12`, day `01..31`, hour `<= 23`, minute/second `<= 59`
in the two-digit readings that a complete parse forces, see `strptime`
below) with the constructor's own year and day-of-month validation. -/
def mkDT (y mo d h mi s : Nat) : Option DateTime :=
  if 1 ≤ y ∧ y ≤ 9999 ∧ 1 ≤ mo ∧ mo ≤ 12 ∧ 1 ≤ d ∧ d ≤ daysInMonth y mo
      ∧ h ≤ 23 ∧ mi ≤ 59 ∧ s ≤ 59 then
    some ⟨y, mo, d, h, mi, s⟩
  else none

/-- The four `strptime` format strings that occur in `get_datetime`. -/
inductive Fmt
  | Ymd          -- "%Y%m%d"
  | YmdHMS       -- "%Y%m%d%H%M%S"
  | dmYHMS       -- "%d%m%Y%H%M%S"
  | YdashMdHMS   -- "%Y-%m-%d-%H-%M-%S"
deriving DecidableEq, Repr

/-- `datetime.strptime(s, fmt)` for the formats above, on the argument
shapes the script produces.

CPython compiles a format into a concatenation of component regexes
(`%Y` is four digits; `%m`, `%d`, `%H`, `%M`, `%S` each match one or two
digits with range limits) and afterwards rejects the parse when characters
remain unconsumed.  For `%Y%m%d%H%M%S` and `%d%m%Y%H%M%S` the argument here
is always 14 digits (an 8-digit and a 6-digit group concatenated), and all
14 characters are consumed exactly when every two-digit component takes two
digits, so a parse succeeds iff the fixed two-digit field reading is in
range.  For `%Y%m%d` the argument is always an 8-digit group with
`"000000"` appended (14 characters) while the format consumes at most 8, so
CPython always raises; the general 8-character case is kept for fidelity.
For `%Y-%m-%d-%H-%M-%S` the argument is the 19-character capture
`\d{4}(-\d{2}){5}`, which parses iff the fields are in range. -/
def strptime : Fmt → List Char → Option DateTime
  | .Ymd, [y1, y2, y3, y4, m1, m2, d1, d2] =>
    if ([y1, y2, y3, y4, m1, m2, d1, d2]).all Char.isDigit then
      mkDT (val4 y1 y2 y3 y4) (val2 m1 m2) (val2 d1 d2) 0 0 0
    else none
  | .Ymd, _ => none
  | .YmdHMS, [y1, y2, y3, y4, m1, m2, d1, d2, h1, h2, mi1, mi2, s1, s2] =>
    if ([y1, y2, y3, y4, m1, m2, d1, d2, h1, h2, mi1, mi2, s1, s2]).all Char.isDigit then
      mkDT (val4 y1 y2 y3 y4) (val2 m1 m2) (val2 d1 d2) (val2 h1 h2) (val2 mi1 mi2) (val2 s1 s2)
    else none
  | .YmdHMS, _ => none
  | .dmYHMS, [d1, d2, m1, m2, y1, y2, y3, y4, h1, h2, mi1, mi2, s1, s2] =>
    if ([d1, d2, m1, m2, y1, y2, y3, y4, h1, h2, mi1, mi2, s1, s2]).all Char.isDigit then
      mkDT (val4 y1 y2 y3 y4) (val2 m1 m2) (val2 d1 d2) (val2 h1 h2) (val2 mi1 mi2) (val2 s1 s2)
    else none
  | .dmYHMS, _ => none
  | .YdashMdHMS, [y1, y2, y3, y4, '-', m1, m2, '-', d1, d2, '-', h1, h2, '-', mi1, mi2, '-', s1, s2] =>
    if ([y1, y2, y3, y4, m1, m2, d1, d2, h1, h2, mi1, mi2, s1, s2]).all Char.isDigit then
      mkDT (val4 y1 y2 y3 y4) (val2 m1 m2) (val2 d1 d2) (val2 h1 h2) (val2 mi1 mi2) (val2 s1 s2)
    else none
  | .YdashMdHMS, _ => none

/-- Regex capture groups of one pattern match, as `get_datetime` uses them. -/
inductive Groups
  | one (g : List Char)
  | two (g1 g2 : List Char)

/-- The datetime string the loop body of `get_datetime` builds from the
groups: two groups are concatenated; a single 8-character group gets
`"000000"` appended as the default time. -/
def buildStr : Groups → List Char
  | .two a b => a ++ b
  | .one g => if g.length = 8 then g ++ ['0', '0', '0', '0', '0', '0'] else g

/-- One `(pattern, date_format)` entry of the `patterns` list. -/
structure Pat where
  search : List Char → Option Groups
  fmt : Fmt

/-- `IMG-(\d{8})-WA\d{4}` at one position. -/
def matchP1At (cs : List Char) : Option Groups :=
  (dropLit ['I', 'M', 'G', '-'] cs).bind fun r1 =>
  (takeDigits 8 r1).bind fun p =>
  (dropLit ['-', 'W', 'A'] p.2).bind fun r3 =>
  (takeDigits 4 r3).map fun _ => .one p.1

/-- `PRE(\d{8})SEP(\d{6})`, the shape shared by the two-group patterns
(an optional non-capturing `(?:_\d{3})?` tail never affects the groups). -/
def matchTwoGroupAt (pre : List Char) (sep : Char) (cs : List Char) : Option Groups :=
  (dropLit pre cs).bind fun r1 =>
  (takeDigits 8 r1).bind fun p =>
  (dropLit [sep] p.2).bind fun r3 =>
  (takeDigits 6 r3).map fun q => .two p.1 q.1

/-- `Screenshot_(\d{4}-\d{2}-\d{2}-\d{2}-\d{2}-\d{2})` at one position. -/
def matchP7At (cs : List Char) : Option Groups :=
  (dropLit ['S', 'c', 'r', 'e', 'e', 'n', 's', 'h', 'o', 't', '_'] cs).bind fun r0 =>
  (takeDigits 4 r0).bind fun a =>
  (dropLit ['-'] a.2).bind fun r1 =>
  (takeDigits 2 r1).bind fun b =>
  (dropLit ['-'] b.2).bind fun r2 =>
  (takeDigits 2 r2).bind fun c =>
  (dropLit ['-'] c.2).bind fun r3 =>
  (takeDigits 2 r3).bind fun d =>
  (dropLit ['-'] d.2).bind fun r4 =>
  (takeDigits 2 r4).bind fun e =>
  (dropLit ['-'] e.2).bind fun r5 =>
  (takeDigits 2 r5).map fun f =>
    .one (a.1 ++ '-' :: b.1 ++ '-' :: c.1 ++ '-' :: d.1 ++ '-' :: e.1 ++ '-' :: f.1)

/-- Entry 1: `(r"IMG-(\d{8})-WA\d{4}", "%Y%m%d")`. -/
def pat1 : Pat := ⟨searchAux matchP1At, .Ymd⟩

/-- Entry 2: `(r"IMG_(\d{8})_(\d{6})(?:_\d{3})?", "%Y%m%d%H%M%S", 2)`. -/
def pat2 : Pat := ⟨searchAux (matchTwoGroupAt ['I', 'M', 'G', '_'] '_'), .YmdHMS⟩

/-- Entry 3: `(r"mms_(\d{8})_(\d{6})", "%Y%m%d%H%M%S", 2)`. -/
def pat3 : Pat := ⟨searchAux (matchTwoGroupAt ['m', 'm', 's', '_'] '_'), .YmdHMS⟩

/-- Entry 4: `(r"Resized_(\d{8})_(\d{6})", "%Y%m%d%H%M%S", 2)`. -/
def pat4 : Pat := ⟨searchAux (matchTwoGroupAt ['R', 'e', 's', 'i', 'z', 'e', 'd', '_'] '_'), .YmdHMS⟩

/-- Entry 5: `(r"Screenshot_(\d{8})-(\d{6})", "%Y%m%d%H%M%S", 2)`. -/
def pat5 : Pat := ⟨searchAux (matchTwoGroupAt ['S', 'c', 'r', 'e', 'e', 'n', 's', 'h', 'o', 't', '_'] '-'), .YmdHMS⟩

/-- Entry 6: `(r"ClumsyNinja_(\d{8})_(\d{6})", "%d%m%Y%H%M%S", 2)`. -/
def pat6 : Pat := ⟨searchAux (matchTwoGroupAt ['C', 'l', 'u', 'm', 's', 'y', 'N', 'i', 'n', 'j', 'a', '_'] '_'), .dmYHMS⟩

/-- Entry 7: `(r"Screenshot_(\d{4}-\d{2}-\d{2}-\d{2}-\d{2}-\d{2})", "%Y-%m-%d-%H-%M-%S")`. -/
def pat7 : Pat := ⟨searchAux matchP7At, .YdashMdHMS⟩

/-- The ordered `patterns` table of `get_datetime`. -/
def patterns : List Pat := [pat1, pat2, pat3, pat4, pat5, pat6, pat7]

/-- One iteration of the pattern loop: no match and a `ValueError` from
`strptime` both fall through to the next pattern (`continue`). -/
def attempt (p : Pat) (base : List Char) : Option DateTime :=
  (p.search base).bind fun g => strptime p.fmt (buildStr g)

/-- The pattern loop: first pattern that matches and parses wins. -/
def firstSuccess : List Pat → List Char → Option DateTime
  | [], _ => none
  | p :: ps, base =>
    match attempt p base with
    | some dt => some dt
    | none => firstSuccess ps base

/-- `(\d{8})[_-]?(\d{6})?` at one position: eight digits, a greedily
consumed optional separator, then optionally six digits. -/
def matchGenericAt (cs : List Char) : Option (List Char × Option (List Char)) :=
  (takeDigits 8 cs).map fun p =>
    let r := match p.2 with
      | c :: rest => if c == '_' || c == '-' then rest else p.2
      | [] => p.2
    (p.1, (takeDigits 6 r).map (fun q => q.1))

/-- The generic fallback block of `get_datetime`: a missing second group
defaults the time to `"000000"`; a `ValueError` is swallowed (`pass`). -/
def genericAttempt (base : List Char) : Option DateTime :=
  match searchAux matchGenericAt base with
  | none => none
  | some (d8, t6) => strptime .YmdHMS (d8 ++ t6.getD ['0', '0', '0', '0', '0', '0'])

/-- `get_datetime`: strip the extension, try the pattern table in order,
then the generic fallback, else raise (`Except.error`). -/
def get_datetime (filename : String) : Except String DateTime :=
  let base := (splitext filename).1.data
  match firstSuccess patterns base with
  | some dt => .ok dt
  | none =>
    match genericAttempt base with
    | some dt => .ok dt
    | none => .error ("Unsupported filename format: " ++ filename)

/-- `is_whatsapp_img`: `re.search(r"IMG-\d{8}-WA\d{4}", filename)` on the
full filename (extension included). -/
def is_whatsapp_img (filename : String) : Bool :=
  (searchAux matchP1At filename.data).isSome

/-! ## French timezone offset (`get_french_timezone_offset`) -/

/-- Days in all years before year `y` (proleptic Gregorian), as
`datetime.toordinal` counts them. -/
def daysBeforeYear (y : Nat) : Nat :=
  365 * (y - 1) + (y - 1) / 4 - (y - 1) / 100 + (y - 1) / 400

/-- Days in year `y` before month `m`. -/
def daysBeforeMonth (y m : Nat) : Nat :=
  (List.range (m - 1)).foldl (fun acc i => acc + daysInMonth y (i + 1)) 0

/-- `datetime.toordinal`: day 1 is January 1 of year 1. -/
def toordinal (y m d : Nat) : Nat :=
  daysBeforeYear y + daysBeforeMonth y m + d

/-- `datetime.weekday`: Monday = 0, ..., Sunday = 6. -/
def weekday (y m d : Nat) : Nat :=
  (toordinal y m d + 6) % 7

/-- The `while ... .weekday() != 6: ... -= timedelta(days=1)` loop of
`get_french_timezone_offset`, walking back from day `d` of month `m`.
Seven consecutive days always contain a Sunday, so fuel 7 never runs out
on the loop's actual inputs (day 31 of March or October). -/
def lastSundayLoop (y m d fuel : Nat) : Nat :=
  match fuel with
  | 0 => d
  | Nat.succ f => if weekday y m d = 6 then d else lastSundayLoop y m (d - 1) f

/-- `get_french_timezone_offset`: summer time iff
`last Sunday of March <= date < last Sunday of October` (midnight bounds,
compared as full datetimes). -/
def get_french_timezone_offset (date : DateTime) : String :=
  let year := date.year
  let march_end := lastSundayLoop year 3 31 7
  let october_end := lastSundayLoop year 10 31 7
  if dtLe ⟨year, 3, march_end, 0, 0, 0⟩ date && dtLt date ⟨year, 10, october_end, 0, 0, 0⟩ then
    "+02:00"
  else "+01:00"

/-! ## Per-file processing (`process_file`, `repair_video`)

The external tools are oracles: `Env` fixes, for one file, every answer the
outside world can give during one `process_file` call. -/

/-- Oracle answers of the external tools for one file. -/
structure Env where
  /-- First exiftool inspection: a `DateTimeOriginal`/`MediaCreateDate`/
  `CreateDate` value is present. -/
  hasDate : Bool
  /-- First inspection fails with a `Truncated`/`Invalid atom size`
  diagnostic. -/
  corrupted : Bool
  /-- The ffmpeg remux succeeds. -/
  repairOk : Bool
  /-- Re-inspection after a successful repair: a date tag is present. -/
  hasDateAfterRepair : Bool
  /-- Re-inspection after a successful repair still reports corruption. -/
  corruptedAfterRepair : Bool
  /-- The metadata write tool (exiftool/exiv2) exits successfully. -/
  writeOk : Bool
  /-- exiv2 reports an existing `Exif.Photo.OffsetTime` tag. -/
  hasTz : Bool
deriving DecidableEq, Repr

/-- Observable side effects of one `process_file` call.  The script never
invokes any filesystem-timestamp operation (`os.utime` or similar), so
`fsTimeChanges` counts such operations and is 0 on every path. -/
structure Effects where
  metadataWrites : Nat := 0
  fsTimeChanges : Nat := 0
  dryRunLog : List String := []
  repairAttempts : Nat := 0
  tempRemoved : Bool := false
  originalReplaced : Bool := false
  offsetTagInCmd : Bool := false
deriving DecidableEq, Repr

/-- The outcome categories `process_file` returns (`Counter` keys). -/
inductive Outcome
  | videos_modified
  | videos_skipped
  | videos_error
  | images_modified
  | images_skipped
  | images_error
  | unsupported_extension
deriving DecidableEq, Repr

/-- The `(result_type, filepath)` pair `process_file` returns, with the
side effects it performed. -/
structure PFResult where
  outcome : Outcome
  refreshPath : Option String
  eff : Effects
deriving DecidableEq, Repr

/-- `has_already_creation_date`: `(False, "corrupted")` on the corruption
signature, else `(tag-present, None)`.  The generic-error branch (non-zero
exit without the signature) also returns `(False, None)` and is covered by
`tagPresent = false`. -/
def has_already_creation_date (tagPresent corrupted : Bool) : Bool × Option String :=
  if corrupted then (false, some "corrupted") else (tagPresent, none)

/-- `repair_video`: refuse non-video extensions, else run ffmpeg into a
temp file; on success `os.replace` the original, on failure remove the
temp file and leave the original untouched. -/
def repair_video (filepath : String) (env : Env) : Bool × Effects :=
  let ext := normalize_extension (splitext filepath).2
  if ext ∈ VIDEO_EXTENSIONS then
    if env.repairOk then
      (true, { repairAttempts := 1, originalReplaced := true })
    else
      (false, { repairAttempts := 1, tempRemoved := true })
  else (false, {})

/-- The tail of `process_file` from `date = get_datetime(filename)` on
(source lines 340-389): parse the filename, dry-run shortcut, then the
exiftool (video) or exiv2 (photo) write; any exception — including the
`ValueError` from `get_datetime` and a failing write — is caught by the
surrounding `except` and becomes the error outcome for the file's kind.
`accEff` carries effects already performed (a video repair). -/
def writeStage (filepath filename : String) (dry_run : Bool) (env : Env)
    (isVideo : Bool) (accEff : Effects) : PFResult :=
  match get_datetime filename with
  | .error _ =>
    { outcome := if isVideo then .videos_error else .images_error,
      refreshPath := none, eff := accEff }
  | .ok _ =>
    if dry_run then
      { outcome := if isVideo then .videos_modified else .images_modified,
        refreshPath := none,
        eff := { accEff with dryRunLog := accEff.dryRunLog ++ [filepath] } }
    else if isVideo then
      if env.writeOk then
        { outcome := .videos_modified, refreshPath := some filepath,
          eff := { accEff with metadataWrites := accEff.metadataWrites + 1 } }
      else
        { outcome := .videos_error, refreshPath := none,
          eff := { accEff with metadataWrites := accEff.metadataWrites + 1 } }
    else
      -- exiv2 command: the OffsetTime tag is added iff `has_timezone` is
      -- false, with no condition on the filename's naming convention.
      let offs := !env.hasTz
      if env.writeOk then
        { outcome := .images_modified, refreshPath := some filepath,
          eff := { accEff with
                   metadataWrites := accEff.metadataWrites + 1
                   offsetTagInCmd := offs } }
      else
        { outcome := .images_error, refreshPath := none,
          eff := { accEff with
                   metadataWrites := accEff.metadataWrites + 1
                   offsetTagInCmd := offs } }

/-- `process_file(filepath, filename, force, dry_run, ...)`.  The `force`
parameter is accepted, as in the source, and — as in the source — never
read. -/
def process_file (filepath filename : String) (force dry_run : Bool) (env : Env) : PFResult :=
  let ext := normalize_extension (splitext filename).2
  if ext ∈ VIDEO_EXTENSIONS then
    let ins1 := has_already_creation_date env.hasDate env.corrupted
    if ins1.2 = some "corrupted" then
      if dry_run then
        { outcome := .videos_modified, refreshPath := some filepath,
          eff := { dryRunLog := [filepath] } }
      else
        let rep := repair_video filepath env
        if rep.1 = false then
          { outcome := .videos_error, refreshPath := none, eff := rep.2 }
        else
          let ins2 := has_already_creation_date env.hasDateAfterRepair env.corruptedAfterRepair
          if ins2.1 then
            { outcome := .videos_skipped, refreshPath := none, eff := rep.2 }
          else
            writeStage filepath filename dry_run env true rep.2
    else if ins1.1 then
      { outcome := .videos_skipped, refreshPath := none, eff := {} }
    else
      writeStage filepath filename dry_run env true {}
  else if ext ∈ PHOTO_EXTENSIONS then
    let ins1 := has_already_creation_date env.hasDate env.corrupted
    if ins1.1 then
      { outcome := .images_skipped, refreshPath := none, eff := {} }
    else
      writeStage filepath filename dry_run env false {}
  else
    { outcome := .unsupported_extension, refreshPath := none, eff := {} }

/-! ## Run controller (`main`)

`get_filepaths` enumerates the filesystem, an oracle; its output is the
`filepaths` parameter.  The thread pool only affects completion order,
which the `Counter` tally is insensitive to, so collection is modelled in
submission order; `stopAt = some k` models the `want_stop` cancellation
flag becoming observable after `k` results were collected (the loop checks
it before consuming each completed future, and once more after the loop,
where `exit()` fires before the refresh phase and the summary). -/

/-- What one run produces and does after the processing loop. -/
structure MainResult where
  collected : List PFResult
  filesToRefresh : List String
  summaryPrinted : Bool
  refreshRun : Bool
deriving DecidableEq, Repr

/-- `main(path, recursive, mod, force, dry_run, threads)` from the filter
stage on.  `mod` is accepted, as in the source, and — as in the source —
never read; `threads` only sizes the pool and is omitted. -/
def main (filepaths : List (String × String)) (mod force dry_run : Bool)
    (env : String → Env) (stopAt : Option Nat) : MainResult :=
  let files := filter_filepaths filepaths SUPPORTED_EXTENSIONS
  let allResults := files.map fun pr =>
    process_file (pathJoin pr.1 pr.2) pr.2 force dry_run (env (pathJoin pr.1 pr.2))
  let collected := match stopAt with
    | none => allResults
    | some k => allResults.take k
  let refresh := collected.filterMap (fun r => r.refreshPath)
  let stopped := stopAt.isSome
  { collected := collected
    filesToRefresh := refresh
    summaryPrinted := !stopped
    refreshRun := !stopped && !refresh.isEmpty && !dry_run }

/-- Run-level tally: occurrences of one outcome category in the collected
results (`counter[category]`). -/
def tallyCount (r : MainResult) (c : Outcome) : Nat :=
  (r.collected.filter (fun pr => pr.outcome == c)).length

/-! ## Constructors for the filenames quantified over by the parser claims -/

/-- The ASCII digit character of `n % 10`. -/
def dchar (n : Nat) : Char := Char.ofNat (48 + n % 10)

/-- Two-digit zero-padded decimal rendering. -/
def pad2 (n : Nat) : List Char := [dchar (n / 10), dchar n]

/-- Four-digit zero-padded decimal rendering. -/
def pad4 (n : Nat) : List Char := [dchar (n / 1000), dchar (n / 100), dchar (n / 10), dchar n]

/-- A WhatsApp-image filename `IMG-YYYYMMDD-WA0007.jpg` with the given
date digits. -/
def waName (y mo d : Nat) : String :=
  ⟨['I', 'M', 'G', '-'] ++ pad4 y ++ pad2 mo ++ pad2 d
    ++ ['-', 'W', 'A', '0', '0', '0', '7', '.', 'j', 'p', 'g']⟩

/-- A Google-Photos-style filename `IMG_YYYYMMDD_HHMMSS.jpg` with the
given date and time digits. -/
def gpName (y mo d h mi s : Nat) : String :=
  ⟨['I', 'M', 'G', '_'] ++ pad4 y ++ pad2 mo ++ pad2 d ++ ['_'] ++ pad2 h ++ pad2 mi ++ pad2 s
    ++ ['.', 'j', 'p', 'g']⟩

/-- An `mms_YYYYMMDD_HHMMSS.jpg` filename with the given digits. -/
def mmsName (y mo d h mi s : Nat) : String :=
  ⟨['m', 'm', 's', '_'] ++ pad4 y ++ pad2 mo ++ pad2 d ++ ['_'] ++ pad2 h ++ pad2 mi ++ pad2 s
    ++ ['.', 'j', 'p', 'g']⟩

/-- A `Resized_YYYYMMDD_HHMMSS.jpg` filename with the given digits. -/
def resizedName (y mo d h mi s : Nat) : String :=
  ⟨['R', 'e', 's', 'i', 'z', 'e', 'd', '_'] ++ pad4 y ++ pad2 mo ++ pad2 d ++ ['_']
    ++ pad2 h ++ pad2 mi ++ pad2 s ++ ['.', 'j', 'p', 'g']⟩

/-- A `Screenshot_YYYYMMDD-HHMMSS.jpg` filename with the given digits. -/
def ssName (y mo d h mi s : Nat) : String :=
  ⟨['S', 'c', 'r', 'e', 'e', 'n', 's', 'h', 'o', 't', '_'] ++ pad4 y ++ pad2 mo ++ pad2 d ++ ['-']
    ++ pad2 h ++ pad2 mi ++ pad2 s ++ ['.', 'j', 'p', 'g']⟩

/-- A `ClumsyNinja_DDMMYYYY_HHMMSS.jpg` filename (day and month swapped
relative to the other families) with the given digits. -/
def cnName (y mo d h mi s : Nat) : String :=
  ⟨['C', 'l', 'u', 'm', 's', 'y', 'N', 'i', 'n', 'j', 'a', '_'] ++ pad2 d ++ pad2 mo ++ pad4 y
    ++ ['_'] ++ pad2 h ++ pad2 mi ++ pad2 s ++ ['.', 'j', 'p', 'g']⟩

/-- A `Screenshot_YYYY-MM-DD-HH-MM-SS.jpg` filename with the given digits. -/
def ssDashName (y mo d h mi s : Nat) : String :=
  ⟨['S', 'c', 'r', 'e', 'e', 'n', 's', 'h', 'o', 't', '_'] ++ pad4 y ++ ['-'] ++ pad2 mo ++ ['-']
    ++ pad2 d ++ ['-'] ++ pad2 h ++ ['-'] ++ pad2 mi ++ ['-'] ++ pad2 s ++ ['.', 'j', 'p', 'g']⟩

/-! ## Helper lemmas -/

/-- `writeStage` never touches filesystem timestamps or the repair-related
effect fields, and never logs outside dry-run. -/
theorem writeStage_eff (fp fn : String) (dry : Bool) (env : Env) (iv : Bool) (acc : Effects) :
    (writeStage fp fn dry env iv acc).eff.fsTimeChanges = acc.fsTimeChanges ∧
    (writeStage fp fn dry env iv acc).eff.repairAttempts = acc.repairAttempts ∧
    (writeStage fp fn dry env iv acc).eff.tempRemoved = acc.tempRemoved ∧
    (writeStage fp fn dry env iv acc).eff.originalReplaced = acc.originalReplaced := by
  unfold writeStage
  rcases get_datetime fn with _ | _ <;> simp <;> split_ifs <;> simp

/-- `writeStage` never reports the unsupported-extension outcome. -/
theorem writeStage_outcome_ne (fp fn : String) (dry : Bool) (env : Env) (iv : Bool) (acc : Effects) :
    (writeStage fp fn dry env iv acc).outcome ≠ .unsupported_extension := by
  unfold writeStage
  rcases get_datetime fn with _ | _ <;> simp <;> split_ifs <;> cases iv <;> simp

/-- `repair_video` performs no metadata write, no timestamp change and no
dry-run logging. -/
theorem repair_video_eff (fp : String) (env : Env) :
    (repair_video fp env).2.fsTimeChanges = 0 ∧
    (repair_video fp env).2.metadataWrites = 0 ∧
    (repair_video fp env).2.dryRunLog = [] := by
  by_cases hv : normalize_extension (splitext fp).2 ∈ VIDEO_EXTENSIONS <;>
    by_cases hr : env.repairOk <;>
      simp [repair_video, hv, hr]

/-- No path of `process_file` performs a filesystem-timestamp change. -/
theorem process_file_fsTime (fp fn : String) (force dry : Bool) (env : Env) :
    (process_file fp fn force dry env).eff.fsTimeChanges = 0 := by
  unfold process_file
  dsimp only
  split_ifs <;>
    simp [writeStage_eff, (repair_video_eff fp env).1]

/-! ## Claim theorems -/

/-- C1 (code bug): `process_file` accepts `force` but never reads it, so a
run with `force` set is byte-for-byte identical to one without, and a file
whose metadata already carries a recognized creation-date tag is skipped —
with no metadata write — even under `force`, for both kinds.  This
contradicts the CLI help of `--force` ("Overwrite existing exif date"). -/
theorem c1_force_ignored_existing_date_still_skipped :
    (∀ (filepath filename : String) (dry_run : Bool) (env : Env),
       process_file filepath filename true dry_run env
         = process_file filepath filename false dry_run env) ∧
    (process_file "/m/IMG_20210315_143000.jpg" "IMG_20210315_143000.jpg" true false
        ⟨true, false, false, false, false, true, false⟩).outcome = .images_skipped ∧
    (process_file "/m/IMG_20210315_143000.jpg" "IMG_20210315_143000.jpg" true false
        ⟨true, false, false, false, false, true, false⟩).eff.metadataWrites = 0 ∧
    (process_file "/m/VID-20210315-WA0001.mp4" "VID-20210315-WA0001.mp4" true false
        ⟨true, false, false, false, false, true, false⟩).outcome = .videos_skipped :=
  ⟨fun _ _ _ _ => rfl, by decide, by decide, by decide⟩

/-- C4 (code bug): `main` accepts `mod` but never reads it, so a run with
`--mod` set is identical to one without, and no path of the pipeline ever
performs a filesystem-timestamp change.  This contradicts the CLI help of
`--mod` ("Set file created/modified date on top of exif for images"). -/
theorem c4_mod_flag_has_no_effect :
    (∀ (filepaths : List (String × String)) (force dry_run : Bool)
       (env : String → Env) (stopAt : Option Nat),
       main filepaths true force dry_run env stopAt
         = main filepaths false force dry_run env stopAt) ∧
    (∀ (filepaths : List (String × String)) (mod force dry_run : Bool)
       (env : String → Env) (stopAt : Option Nat),
       ∀ r ∈ (main filepaths mod force dry_run env stopAt).collected,
         r.eff.fsTimeChanges = 0) := by
  refine ⟨fun _ _ _ _ _ => rfl, ?_⟩
  intro filepaths mod force dry_run env stopAt r hr
  have hmem : r ∈ (filter_filepaths filepaths SUPPORTED_EXTENSIONS).map
      (fun pr => process_file (pathJoin pr.1 pr.2) pr.2 force dry_run (env (pathJoin pr.1 pr.2))) := by
    simp only [main] at hr
    rcases stopAt with _ | k
    · exact hr
    · exact List.mem_of_mem_take hr
  rcases List.mem_map.mp hmem with ⟨pr, _, hpr⟩
  rw [← hpr]
  exact process_file_fsTime _ _ _ _ _

/-- C9, counterexample: cancellation observed before the first collected
result makes the run exit without printing the summary, where the claim
says a summary is still printed. -/
theorem c9_counterexample_no_summary_on_cancel :
    (main [("/m", "IMG_20210315_143000.jpg")] false false false
       (fun _ => ⟨false, false, false, false, false, true, false⟩) (some 0)).summaryPrinted
      = false := by decide

/-- C9 (amended): once the cancellation flag is observed after `k`
collected results, the remote-refresh phase is never invoked, the summary
is not printed (the run leaves through `exit()`), and the collected results
— hence the tally — are exactly the first `k` results of the uncancelled
run. -/
theorem c9_cancel_stops_dispatch_skips_refresh_no_summary :
    ∀ (filepaths : List (String × String)) (mod force dry_run : Bool)
      (env : String → Env) (k : Nat),
      (main filepaths mod force dry_run env (some k)).summaryPrinted = false ∧
      (main filepaths mod force dry_run env (some k)).refreshRun = false ∧
      (main filepaths mod force dry_run env (some k)).collected
        = (main filepaths mod force dry_run env none).collected.take k := by
  intro filepaths mod force dry_run env k
  refine ⟨rfl, rfl, rfl⟩

/-- C2, counterexample: a corrupted video with an unparseable filename, in
an environment where every external call succeeds.  Dry-run reports
`videos_modified`; the real run repairs the file, fails to parse the name
and reports `videos_error` — a different outcome category. -/
theorem c2_counterexample_dry_run_category_differs :
    (process_file "/m/random.mp4" "random.mp4" false true
        ⟨false, true, true, false, false, true, false⟩).outcome = .videos_modified ∧
    (process_file "/m/random.mp4" "random.mp4" false false
        ⟨false, true, true, false, false, true, false⟩).outcome = .videos_error :=
  ⟨by decide, by decide⟩

/-- C3, counterexample: `20210315.jpg` matches none of the seven known
pattern families (only the generic fallback parses it) and is not a
WhatsApp-convention name, yet the photo write includes the timezone-offset
tag because the file has no existing timezone tag. -/
theorem c3_counterexample_offset_written_without_convention :
    (process_file "/m/20210315.jpg" "20210315.jpg" false false
        ⟨false, false, false, false, false, true, false⟩).eff.offsetTagInCmd = true ∧
    is_whatsapp_img "20210315.jpg" = false ∧
    firstSuccess patterns ((splitext "20210315.jpg").1.data) = none :=
  ⟨by decide, by decide, by decide⟩

/-- A file whose normalized extension is in the supported set never takes
the unsupported-extension branch of `process_file`. -/
theorem process_file_outcome_supported (fp fn : String) (force dry : Bool) (env : Env)
    (h : normalize_extension (splitext fn).2 ∈ SUPPORTED_EXTENSIONS) :
    (process_file fp fn force dry env).outcome ≠ .unsupported_extension := by
  intro hbad
  have h' : normalize_extension (splitext fn).2 ∈ PHOTO_EXTENSIONS ∨
      normalize_extension (splitext fn).2 ∈ VIDEO_EXTENSIONS :=
    List.mem_append.mp (by simpa [SUPPORTED_EXTENSIONS] using h)
  unfold process_file at hbad
  dsimp only at hbad
  split_ifs at hbad <;>
    first
      | exact writeStage_outcome_ne _ _ _ _ _ _ hbad
      | simp_all

/-- C10: a `(dir, name)` pair that survives `filter_filepaths` with the
supported extension set can never produce the unsupported-extension
outcome, so a full run's tally has count 0 for that category. -/
theorem c10_filtered_inputs_never_unsupported :
    (∀ (filepaths : List (String × String)) (pr : String × String)
       (force dry_run : Bool) (env : Env),
       pr ∈ filter_filepaths filepaths SUPPORTED_EXTENSIONS →
       (process_file (pathJoin pr.1 pr.2) pr.2 force dry_run env).outcome
         ≠ .unsupported_extension) ∧
    (∀ (filepaths : List (String × String)) (mod force dry_run : Bool)
       (env : String → Env) (stopAt : Option Nat),
       tallyCount (main filepaths mod force dry_run env stopAt) .unsupported_extension = 0) := by
  have key : ∀ (filepaths : List (String × String)) (pr : String × String)
      (force dry_run : Bool) (env : Env),
      pr ∈ filter_filepaths filepaths SUPPORTED_EXTENSIONS →
      (process_file (pathJoin pr.1 pr.2) pr.2 force dry_run env).outcome
        ≠ .unsupported_extension := by
    intro filepaths pr force dry_run env hmem
    have hext := (List.mem_filter.mp hmem).2
    exact process_file_outcome_supported _ _ _ _ _ (by simpa using hext)
  refine ⟨key, ?_⟩
  intro filepaths mod force dry_run env stopAt
  rw [tallyCount, List.length_eq_zero]
  rw [List.filter_eq_nil_iff]
  intro r hr
  have hmem : r ∈ (filter_filepaths filepaths SUPPORTED_EXTENSIONS).map
      (fun pr => process_file (pathJoin pr.1 pr.2) pr.2 force dry_run (env (pathJoin pr.1 pr.2))) := by
    simp only [main] at hr
    rcases stopAt with _ | k
    · exact hr
    · exact List.mem_of_mem_take hr
  rcases List.mem_map.mp hmem with ⟨pr, hpr, hid⟩
  simp only [beq_iff_eq]
  rw [← hid]
  exact key filepaths pr force dry_run _ hpr

/-- C7: a corrupted video (non-dry-run) triggers exactly one ffmpeg repair
attempt; when that attempt fails the temp file is removed, the original is
neither replaced nor written to, and the outcome is `videos_error`. -/
theorem c7_corrupted_video_exactly_one_repair :
    ∀ (filepath filename : String) (force : Bool) (env : Env),
      normalize_extension (splitext filename).2 ∈ VIDEO_EXTENSIONS →
      normalize_extension (splitext filepath).2 ∈ VIDEO_EXTENSIONS →
      env.corrupted = true →
      (process_file filepath filename force false env).eff.repairAttempts = 1 ∧
      (env.repairOk = false →
        (process_file filepath filename force false env).outcome = .videos_error ∧
        (process_file filepath filename force false env).eff.tempRemoved = true ∧
        (process_file filepath filename force false env).eff.originalReplaced = false ∧
        (process_file filepath filename force false env).eff.metadataWrites = 0 ∧
        (process_file filepath filename force false env).eff.dryRunLog = []) := by
  intro fp fn force env hfn hfp hcor
  have hins : has_already_creation_date env.hasDate env.corrupted = (false, some "corrupted") := by
    simp [has_already_creation_date, hcor]
  unfold process_file
  dsimp only
  rw [if_pos hfn, hins]
  unfold repair_video
  rw [if_pos hfp]
  rcases hro : env.repairOk with _ | _ <;>
    simp [hro] <;>
    split_ifs <;>
    simp [writeStage_eff]

/-- C7 witness. -/
theorem c7_corrupted_video_exactly_one_repair_witness :
    (process_file "/m/VID-20210315-WA0001.mp4" "VID-20210315-WA0001.mp4" false false
        ⟨false, true, false, false, false, true, false⟩).eff.repairAttempts = 1 ∧
    (process_file "/m/VID-20210315-WA0001.mp4" "VID-20210315-WA0001.mp4" false false
        ⟨false, true, false, false, false, true, false⟩).outcome = .videos_error := by
  have h := c7_corrupted_video_exactly_one_repair
    "/m/VID-20210315-WA0001.mp4" "VID-20210315-WA0001.mp4" false
    ⟨false, true, false, false, false, true, false⟩
    (by decide) (by decide) (by decide)
  exact ⟨h.1, (h.2 (by decide)).1⟩

/-- The photo and video extension sets are disjoint. -/
theorem photo_not_video (e : String) (h : e ∈ PHOTO_EXTENSIONS) : e ∉ VIDEO_EXTENSIONS := by
  fin_cases h <;> decide

/-- C3 (amended): for every photo write (non-dry-run, no pre-existing date,
parseable filename) the exiv2 command includes the timezone-offset tag
exactly when the file has no existing timezone tag — the filename's naming
convention plays no role. -/
theorem c3_offset_tag_depends_only_on_existing_tz :
    ∀ (filepath filename : String) (force : Bool) (env : Env),
      normalize_extension (splitext filename).2 ∈ PHOTO_EXTENSIONS →
      (has_already_creation_date env.hasDate env.corrupted).1 = false →
      (∃ dt, get_datetime filename = .ok dt) →
      (process_file filepath filename force false env).eff.offsetTagInCmd = !env.hasTz := by
  intro fp fn force env hp hins hdt
  have hv : normalize_extension (splitext fn).2 ∉ VIDEO_EXTENSIONS := photo_not_video _ hp
  rcases hdt with ⟨dt, hdt⟩
  unfold process_file
  dsimp only
  rw [if_neg hv, if_pos hp, if_neg (by simp [hins])]
  unfold writeStage
  rw [hdt]
  dsimp only
  rcases hw : env.writeOk with _ | _ <;> simp [hw]

/-- C3 witness. -/
theorem c3_offset_tag_depends_only_on_existing_tz_witness :
    (process_file "/m/IMG_20210315_143000.jpg" "IMG_20210315_143000.jpg" false false
        ⟨false, false, false, false, false, true, false⟩).eff.offsetTagInCmd = true := by
  simpa using c3_offset_tag_depends_only_on_existing_tz
    "/m/IMG_20210315_143000.jpg" "IMG_20210315_143000.jpg" false
    ⟨false, false, false, false, false, true, false⟩ (by decide) (by decide)
    ⟨⟨2021, 3, 15, 14, 30, 0⟩, rfl⟩

set_option maxHeartbeats 1000000 in
/-- C2 (amended): dry-run performs no metadata write, no repair, no
filesystem-timestamp change and no temp-file handling; it appends the path
to the side log exactly when it reports a modified outcome; and it reports
the same outcome category as a real run except for corrupted videos (which
dry-run always reports as `videos_modified`) and files whose real write
would fail. -/
theorem c2_dry_run_mutates_nothing_category_mostly_matches :
    ∀ (filepath filename : String) (force : Bool) (env : Env),
      (process_file filepath filename force true env).eff.metadataWrites = 0 ∧
      (process_file filepath filename force true env).eff.fsTimeChanges = 0 ∧
      (process_file filepath filename force true env).eff.repairAttempts = 0 ∧
      (process_file filepath filename force true env).eff.tempRemoved = false ∧
      (process_file filepath filename force true env).eff.originalReplaced = false ∧
      (((process_file filepath filename force true env).outcome = .videos_modified ∨
        (process_file filepath filename force true env).outcome = .images_modified) ↔
        (process_file filepath filename force true env).eff.dryRunLog = [filepath]) ∧
      (¬ (normalize_extension (splitext filename).2 ∈ VIDEO_EXTENSIONS ∧ env.corrupted = true) →
        env.writeOk = true →
        (process_file filepath filename force true env).outcome
          = (process_file filepath filename force false env).outcome) := by
  intro fp fn force env
  by_cases hv : normalize_extension (splitext fn).2 ∈ VIDEO_EXTENSIONS <;>
  by_cases hp : normalize_extension (splitext fn).2 ∈ PHOTO_EXTENSIONS <;>
  rcases hc : env.corrupted with _ | _ <;>
  rcases hd : env.hasDate with _ | _ <;>
  rcases hg : get_datetime fn with e | dt <;>
  rcases hw : env.writeOk with _ | _ <;>
  simp_all [process_file, writeStage, has_already_creation_date]

/-- C2 witness. -/
theorem c2_dry_run_mutates_nothing_witness :
    (process_file "/m/IMG_20210315_143000.jpg" "IMG_20210315_143000.jpg" false true
        ⟨false, false, false, false, false, true, false⟩).outcome
      = (process_file "/m/IMG_20210315_143000.jpg" "IMG_20210315_143000.jpg" false false
        ⟨false, false, false, false, false, true, false⟩).outcome ∧
    (process_file "/m/IMG_20210315_143000.jpg" "IMG_20210315_143000.jpg" false true
        ⟨false, false, false, false, false, true, false⟩).eff.metadataWrites = 0 := by
  have h := c2_dry_run_mutates_nothing_category_mostly_matches
    "/m/IMG_20210315_143000.jpg" "IMG_20210315_143000.jpg" false
    ⟨false, false, false, false, false, true, false⟩
  exact ⟨h.2.2.2.2.2.2 (by decide) (by decide), h.1⟩

/-- C6: `get_datetime` raises the unrecognized-format error exactly when
every entry of the pattern table and the generic fallback fail (a
matched-but-invalid candidate counts as a failed entry and the remaining
patterns are still tried); `random.jpg` is such a failure; and
`IMG_20210230_143000_Screenshot_2021-03-15-14-30-00.jpg` witnesses the
skip behaviour: pattern 2 matches but Feb 30 fails to parse, and pattern 7
still succeeds. -/
theorem c6_error_only_on_exhaustion :
    (∀ filename : String,
       get_datetime filename = .error ("Unsupported filename format: " ++ filename) ↔
         (firstSuccess patterns ((splitext filename).1.data) = none ∧
          genericAttempt ((splitext filename).1.data) = none)) ∧
    get_datetime "random.jpg" = .error "Unsupported filename format: random.jpg" ∧
    ((pat2.search ((splitext "IMG_20210230_143000_Screenshot_2021-03-15-14-30-00.jpg").1.data)).isSome
        = true ∧
     attempt pat2 ((splitext "IMG_20210230_143000_Screenshot_2021-03-15-14-30-00.jpg").1.data)
        = none ∧
     get_datetime "IMG_20210230_143000_Screenshot_2021-03-15-14-30-00.jpg"
        = .ok ⟨2021, 3, 15, 14, 30, 0⟩) := by
  refine ⟨?_, rfl, rfl, rfl, rfl⟩
  intro fn
  unfold get_datetime
  dsimp only
  rcases h1 : firstSuccess patterns ((splitext fn).1.data) with _ | dt <;>
    rcases h2 : genericAttempt ((splitext fn).1.data) with _ | dt2 <;>
      simp [h1, h2]

/-- `weekday` within a fixed month is linear in the day, modulo 7. -/
theorem weekday_linear (y m d : Nat) :
    weekday y m d = (daysBeforeYear y + daysBeforeMonth y m + 6 + d) % 7 := by
  unfold weekday toordinal
  congr 1
  omega

/-- The last-Sunday loop started at day 31 lands on a Sunday in `[25, 31]`. -/
theorem lastSundayLoop_31_spec (y m : Nat) :
    25 ≤ lastSundayLoop y m 31 7 ∧ lastSundayLoop y m 31 7 ≤ 31 ∧
      weekday y m (lastSundayLoop y m 31 7) = 6 := by
  have hu : lastSundayLoop y m 31 7 =
      (if weekday y m 31 = 6 then 31 else
       if weekday y m 30 = 6 then 30 else
       if weekday y m 29 = 6 then 29 else
       if weekday y m 28 = 6 then 28 else
       if weekday y m 27 = 6 then 27 else
       if weekday y m 26 = 6 then 26 else
       if weekday y m 25 = 6 then 25 else 24) := rfl
  rw [hu]
  split_ifs with h1 h2 h3 h4 h5 h6 h7 <;>
    simp only [weekday_linear] at * <;>
    refine ⟨by omega, by omega, by omega⟩

/-- Two Sundays in the last seven days of one month coincide. -/
theorem lastSunday_unique (y m a b : Nat)
    (ha : 25 ≤ a) (ha' : a ≤ 31) (hsa : weekday y m a = 6)
    (hb : 25 ≤ b) (hb' : b ≤ 31) (hsb : weekday y m b = 6) : a = b := by
  rw [weekday_linear] at hsa hsb
  omega

/-- C8: for every datetime, the derived offset is `+02:00` exactly when the
date lies in `[last Sunday of March 00:00, last Sunday of October 00:00)`
of its year — the last Sundays being characterized as the unique Sundays in
the months' final weeks — and `+01:00` exactly otherwise; in particular
2021-07-04 gives `+02:00` and 2021-01-04 gives `+01:00`. -/
theorem c8_dst_window_characterizes_offset :
    (∀ (dt : DateTime) (ds dOct : Nat),
       25 ≤ ds → ds ≤ 31 → weekday dt.year 3 ds = 6 →
       25 ≤ dOct → dOct ≤ 31 → weekday dt.year 10 dOct = 6 →
       (get_french_timezone_offset dt = "+02:00" ↔
          (dtLe ⟨dt.year, 3, ds, 0, 0, 0⟩ dt && dtLt dt ⟨dt.year, 10, dOct, 0, 0, 0⟩) = true) ∧
       (get_french_timezone_offset dt = "+01:00" ↔
          (dtLe ⟨dt.year, 3, ds, 0, 0, 0⟩ dt && dtLt dt ⟨dt.year, 10, dOct, 0, 0, 0⟩) = false)) ∧
    get_french_timezone_offset ⟨2021, 7, 4, 0, 0, 0⟩ = "+02:00" ∧
    get_french_timezone_offset ⟨2021, 1, 4, 0, 0, 0⟩ = "+01:00" := by
  refine ⟨?_, by decide, by decide⟩
  intro dt ds dOct h1 h2 h3 h4 h5 h6
  obtain ⟨m1, m2, m3⟩ := lastSundayLoop_31_spec dt.year 3
  obtain ⟨o1, o2, o3⟩ := lastSundayLoop_31_spec dt.year 10
  have hm : lastSundayLoop dt.year 3 31 7 = ds :=
    lastSunday_unique dt.year 3 _ _ m1 m2 m3 h1 h2 h3
  have ho : lastSundayLoop dt.year 10 31 7 = dOct :=
    lastSunday_unique dt.year 10 _ _ o1 o2 o3 h4 h5 h6
  unfold get_french_timezone_offset
  dsimp only
  rw [hm, ho]
  rcases hcond : dtLe ⟨dt.year, 3, ds, 0, 0, 0⟩ dt && dtLt dt ⟨dt.year, 10, dOct, 0, 0, 0⟩ with _ | _ <;>
    simp [hcond]

/-- C8 witness. -/
theorem c8_dst_window_characterizes_offset_witness :
    (get_french_timezone_offset ⟨2021, 7, 4, 12, 30, 0⟩ = "+02:00" ↔
       (dtLe ⟨2021, 3, 28, 0, 0, 0⟩ ⟨2021, 7, 4, 12, 30, 0⟩ &&
        dtLt ⟨2021, 7, 4, 12, 30, 0⟩ ⟨2021, 10, 31, 0, 0, 0⟩) = true) ∧
    (get_french_timezone_offset ⟨2021, 7, 4, 12, 30, 0⟩ = "+01:00" ↔
       (dtLe ⟨2021, 3, 28, 0, 0, 0⟩ ⟨2021, 7, 4, 12, 30, 0⟩ &&
        dtLt ⟨2021, 7, 4, 12, 30, 0⟩ ⟨2021, 10, 31, 0, 0, 0⟩) = false) :=
  c8_dst_window_characterizes_offset.1 ⟨2021, 7, 4, 12, 30, 0⟩ 28 31
    (by decide) (by decide) (by decide) (by decide) (by decide) (by decide)

/-- C10 witness. -/
theorem c10_filtered_inputs_never_unsupported_witness :
    (process_file (pathJoin "/m" "a.jpg") "a.jpg" false false
        ⟨false, false, false, false, false, true, false⟩).outcome ≠ .unsupported_extension :=
  c10_filtered_inputs_never_unsupported.1 [("/m", "a.jpg")] ("/m", "a.jpg") false false
    ⟨false, false, false, false, false, true, false⟩ (by decide)

/-! ## C5 infrastructure and theorem -/

theorem dchar_toNat (n : Nat) : (dchar n).toNat = 48 + n % 10 := by
  have h : n % 10 < 10 := Nat.mod_lt _ (by norm_num)
  unfold dchar
  set k := n % 10 with hk
  interval_cases k <;> rfl

@[simp] theorem dchar_isDigit (n : Nat) : (dchar n).isDigit = true := by
  have h : n % 10 < 10 := Nat.mod_lt _ (by norm_num)
  unfold dchar
  set k := n % 10 with hk
  interval_cases k <;> rfl

@[simp] theorem dchar_beq_lit (n : Nat) (c : Char) (h : c.isDigit = false) :
    (dchar n == c) = false := by
  rcases hbe : dchar n == c with _ | _
  · rfl
  · exfalso
    have he : dchar n = c := eq_of_beq hbe
    rw [← he, dchar_isDigit] at h
    exact Bool.true_eq_false.mp h

theorem charVal_dchar (n : Nat) : charVal (dchar n) = n % 10 := by
  rw [charVal, dchar_toNat]
  omega

theorem gp_split (y mo d h mi s : Nat) :
    (splitext (gpName y mo d h mi s)).1.data
      = ['I', 'M', 'G', '_'] ++ pad4 y ++ pad2 mo ++ pad2 d ++ ['_'] ++ pad2 h ++ pad2 mi ++ pad2 s := by
  simp [gpName, splitext, rlastIdx, pad4, pad2]


theorem val2_dchar (n : Nat) (h : n ≤ 99) : val2 (dchar (n / 10)) (dchar n) = n := by
  simp [val2, charVal_dchar]
  omega

theorem val4_dchar (n : Nat) (h : n ≤ 9999) :
    val4 (dchar (n / 1000)) (dchar (n / 100)) (dchar (n / 10)) (dchar n) = n := by
  simp [val4, charVal_dchar]
  omega

theorem daysInMonth_le (y m : Nat) : daysInMonth y m ≤ 31 := by
  unfold daysInMonth
  split_ifs <;> omega

theorem strptime_pad6 (y mo d h mi s : Nat)
    (hy1 : 1 ≤ y) (hy : y ≤ 9999) (hmo1 : 1 ≤ mo) (hmo : mo ≤ 12)
    (hd1 : 1 ≤ d) (hd : d ≤ daysInMonth y mo) (hh : h ≤ 23) (hmi : mi ≤ 59) (hs : s ≤ 59) :
    strptime .YmdHMS (pad4 y ++ pad2 mo ++ pad2 d ++ pad2 h ++ pad2 mi ++ pad2 s)
      = some ⟨y, mo, d, h, mi, s⟩ := by
  simp only [pad4, pad2, List.cons_append, List.nil_append, strptime, List.all_cons, List.all_nil,
    dchar_isDigit, Bool.and_self, Bool.and_true, Bool.true_and, if_true]
  rw [val4_dchar y hy, val2_dchar mo (by omega), val2_dchar d (by have := daysInMonth_le y mo; omega),
    val2_dchar h (by omega), val2_dchar mi (by omega), val2_dchar s (by omega)]
  rw [mkDT, if_pos]
  exact ⟨hy1, hy, hmo1, hmo, hd1, hd, hh, hmi, hs⟩

theorem gp_pat1_none (y mo d h mi s : Nat) :
    attempt pat1 (['I', 'M', 'G', '_'] ++ pad4 y ++ pad2 mo ++ pad2 d ++ ['_']
      ++ pad2 h ++ pad2 mi ++ pad2 s) = none := by
  simp [attempt, pat1, searchAux, matchP1At, dropLit, takeDigits, pad4, pad2]

theorem gp_pat2_some (y mo d h mi s : Nat) :
    pat2.search (['I', 'M', 'G', '_'] ++ pad4 y ++ pad2 mo ++ pad2 d ++ ['_']
      ++ pad2 h ++ pad2 mi ++ pad2 s)
      = some (.two (pad4 y ++ pad2 mo ++ pad2 d) (pad2 h ++ pad2 mi ++ pad2 s)) := by
  simp [pat2, searchAux, matchTwoGroupAt, dropLit, takeDigits, pad4, pad2]

theorem gp_parse (y mo d h mi s : Nat) (hy1 : 1 ≤ y) (hy : y ≤ 9999)
    (hmo1 : 1 ≤ mo) (hmo : mo ≤ 12) (hd1 : 1 ≤ d) (hd : d ≤ daysInMonth y mo)
    (hh : h ≤ 23) (hmi : mi ≤ 59) (hs : s ≤ 59) :
    get_datetime (gpName y mo d h mi s) = .ok ⟨y, mo, d, h, mi, s⟩ := by
  unfold get_datetime
  rw [gp_split]
  simp only [List.append_assoc]
  have h1 := gp_pat1_none y mo d h mi s
  have h2 := gp_pat2_some y mo d h mi s
  have hparse := strptime_pad6 y mo d h mi s hy1 hy hmo1 hmo hd1 hd hh hmi hs
  simp only [List.append_assoc] at h1 h2 hparse
  have h2' : attempt pat2 (['I', 'M', 'G', '_'] ++ (pad4 y ++ (pad2 mo ++ (pad2 d
        ++ (['_'] ++ (pad2 h ++ (pad2 mi ++ pad2 s)))))))
      = some ⟨y, mo, d, h, mi, s⟩ := by
    rw [attempt, h2]
    simpa [buildStr, pat2, List.append_assoc] using hparse
  simp only [patterns, firstSuccess, h1, h2']

theorem wa_split (y mo d : Nat) :
    (splitext (waName y mo d)).1.data
      = ['I', 'M', 'G', '-'] ++ pad4 y ++ pad2 mo ++ pad2 d ++ ['-', 'W', 'A', '0', '0', '0', '7'] := by
  simp [waName, splitext, rlastIdx, pad4, pad2]

theorem wa_pat1_none (y mo d : Nat) :
    attempt pat1 (['I', 'M', 'G', '-'] ++ pad4 y ++ pad2 mo ++ pad2 d
      ++ ['-', 'W', 'A', '0', '0', '0', '7']) = none := by
  simp [attempt, pat1, searchAux, matchP1At, dropLit, takeDigits, pad4, pad2, buildStr, strptime]

theorem wa_gen_some (y mo d : Nat) :
    searchAux matchGenericAt (['I', 'M', 'G', '-'] ++ pad4 y ++ pad2 mo ++ pad2 d
      ++ ['-', 'W', 'A', '0', '0', '0', '7'])
      = some (pad4 y ++ pad2 mo ++ pad2 d, none) := by
  simp [searchAux, matchGenericAt, takeDigits, pad4, pad2]

theorem matchTwoGroupAt_nil (p : Char) (pre : List Char) (sep : Char) :
    matchTwoGroupAt (p :: pre) sep [] = none := rfl

theorem matchTwoGroupAt_head_ne {c p : Char} (pre : List Char) (sep : Char)
    (h : (c == p) = false) (cs : List Char) :
    matchTwoGroupAt (p :: pre) sep (c :: cs) = none := by
  simp [matchTwoGroupAt, dropLit, h]

theorem matchP7At_nil : matchP7At [] = none := rfl

theorem matchP7At_head_ne {c : Char} (h : (c == 'S') = false) (cs : List Char) :
    matchP7At (c :: cs) = none := by
  simp [matchP7At, dropLit, h]

theorem wa_pats_none (y mo d : Nat) :
    attempt pat2 (['I', 'M', 'G', '-'] ++ pad4 y ++ pad2 mo ++ pad2 d
      ++ ['-', 'W', 'A', '0', '0', '0', '7']) = none ∧
    attempt pat3 (['I', 'M', 'G', '-'] ++ pad4 y ++ pad2 mo ++ pad2 d
      ++ ['-', 'W', 'A', '0', '0', '0', '7']) = none ∧
    attempt pat4 (['I', 'M', 'G', '-'] ++ pad4 y ++ pad2 mo ++ pad2 d
      ++ ['-', 'W', 'A', '0', '0', '0', '7']) = none ∧
    attempt pat5 (['I', 'M', 'G', '-'] ++ pad4 y ++ pad2 mo ++ pad2 d
      ++ ['-', 'W', 'A', '0', '0', '0', '7']) = none ∧
    attempt pat6 (['I', 'M', 'G', '-'] ++ pad4 y ++ pad2 mo ++ pad2 d
      ++ ['-', 'W', 'A', '0', '0', '0', '7']) = none ∧
    attempt pat7 (['I', 'M', 'G', '-'] ++ pad4 y ++ pad2 mo ++ pad2 d
      ++ ['-', 'W', 'A', '0', '0', '0', '7']) = none := by
  refine ⟨?_, ?_, ?_, ?_, ?_, ?_⟩
  · simp [attempt, pat2, searchAux, matchTwoGroupAt, matchTwoGroupAt_head_ne, matchTwoGroupAt_nil,
      dropLit, takeDigits, pad4, pad2]
  · simp [attempt, pat3, searchAux, matchTwoGroupAt_head_ne, matchTwoGroupAt_nil, pad4, pad2]
  · simp [attempt, pat4, searchAux, matchTwoGroupAt_head_ne, matchTwoGroupAt_nil, pad4, pad2]
  · simp [attempt, pat5, searchAux, matchTwoGroupAt_head_ne, matchTwoGroupAt_nil, pad4, pad2]
  · simp [attempt, pat6, searchAux, matchTwoGroupAt_head_ne, matchTwoGroupAt_nil, pad4, pad2]
  · simp [attempt, pat7, searchAux, matchP7At_head_ne, matchP7At_nil, pad4, pad2]

theorem pad2_zero : pad2 0 = ['0', '0'] := rfl

theorem wa_parse (y mo d : Nat) (hy1 : 1 ≤ y) (hy : y ≤ 9999)
    (hmo1 : 1 ≤ mo) (hmo : mo ≤ 12) (hd1 : 1 ≤ d) (hd : d ≤ daysInMonth y mo) :
    get_datetime (waName y mo d) = .ok ⟨y, mo, d, 0, 0, 0⟩ := by
  unfold get_datetime
  rw [wa_split]
  simp only [List.append_assoc]
  have h1 := wa_pat1_none y mo d
  obtain ⟨h2, h3, h4, h5, h6, h7⟩ := wa_pats_none y mo d
  have hgen := wa_gen_some y mo d
  have hparse := strptime_pad6 y mo d 0 0 0 hy1 hy hmo1 hmo hd1 hd
    (by decide) (by decide) (by decide)
  simp only [pad2_zero] at hparse
  simp only [List.append_assoc, List.cons_append, List.nil_append] at h1 h2 h3 h4 h5 h6 h7 hgen hparse ⊢
  have hga : genericAttempt ('I' :: 'M' :: 'G' :: '-' :: (pad4 y ++ (pad2 mo ++ (pad2 d
        ++ ['-', 'W', 'A', '0', '0', '0', '7'])))) = some ⟨y, mo, d, 0, 0, 0⟩ := by
    simp only [genericAttempt, hgen, Option.getD]
    simp only [List.append_assoc] at hparse ⊢
    rw [hparse]
  simp only [patterns, firstSuccess, h1, h2, h3, h4, h5, h6, h7, hga]

theorem matchP1At_nil : matchP1At [] = none := rfl

theorem matchP1At_head_ne {c : Char} (h : (c == 'I') = false) (cs : List Char) :
    matchP1At (c :: cs) = none := by
  simp [matchP1At, dropLit, h]

theorem mms_split (y mo d h mi s : Nat) :
    (splitext (mmsName y mo d h mi s)).1.data
      = ['m', 'm', 's', '_'] ++ pad4 y ++ pad2 mo ++ pad2 d ++ ['_'] ++ pad2 h ++ pad2 mi ++ pad2 s := by
  simp [mmsName, splitext, rlastIdx, pad4, pad2]

theorem mms_pats_none (y mo d h mi s : Nat) :
    attempt pat1 (['m', 'm', 's', '_'] ++ pad4 y ++ pad2 mo ++ pad2 d ++ ['_']
      ++ pad2 h ++ pad2 mi ++ pad2 s) = none ∧
    attempt pat2 (['m', 'm', 's', '_'] ++ pad4 y ++ pad2 mo ++ pad2 d ++ ['_']
      ++ pad2 h ++ pad2 mi ++ pad2 s) = none := by
  refine ⟨?_, ?_⟩
  · simp [attempt, pat1, searchAux, matchP1At_head_ne, matchP1At_nil, pad4, pad2]
  · simp [attempt, pat2, searchAux, matchTwoGroupAt, matchTwoGroupAt_head_ne, matchTwoGroupAt_nil,
      dropLit, takeDigits, pad4, pad2]

theorem mms_pat3_some (y mo d h mi s : Nat) :
    pat3.search (['m', 'm', 's', '_'] ++ pad4 y ++ pad2 mo ++ pad2 d ++ ['_']
      ++ pad2 h ++ pad2 mi ++ pad2 s)
      = some (.two (pad4 y ++ pad2 mo ++ pad2 d) (pad2 h ++ pad2 mi ++ pad2 s)) := by
  simp [pat3, searchAux, matchTwoGroupAt, dropLit, takeDigits, pad4, pad2]

theorem mms_parse (y mo d h mi s : Nat) (hy1 : 1 ≤ y) (hy : y ≤ 9999)
    (hmo1 : 1 ≤ mo) (hmo : mo ≤ 12) (hd1 : 1 ≤ d) (hd : d ≤ daysInMonth y mo)
    (hh : h ≤ 23) (hmi : mi ≤ 59) (hs : s ≤ 59) :
    get_datetime (mmsName y mo d h mi s) = .ok ⟨y, mo, d, h, mi, s⟩ := by
  unfold get_datetime
  rw [mms_split]
  simp only [List.append_assoc]
  obtain ⟨p1, p2⟩ := mms_pats_none y mo d h mi s
  have p3 := mms_pat3_some y mo d h mi s
  have hparse := strptime_pad6 y mo d h mi s hy1 hy hmo1 hmo hd1 hd hh hmi hs
  simp only [List.append_assoc] at p1 p2 p3 hparse
  have p3' : attempt pat3 (['m', 'm', 's', '_'] ++ (pad4 y ++ (pad2 mo ++ (pad2 d
        ++ (['_'] ++ (pad2 h ++ (pad2 mi ++ pad2 s)))))))
      = some ⟨y, mo, d, h, mi, s⟩ := by
    rw [attempt, p3]
    simpa [buildStr, pat3, List.append_assoc] using hparse
  simp only [patterns, firstSuccess, p1, p2, p3']

theorem resized_split (y mo d h mi s : Nat) :
    (splitext (resizedName y mo d h mi s)).1.data
      = ['R', 'e', 's', 'i', 'z', 'e', 'd', '_'] ++ pad4 y ++ pad2 mo ++ pad2 d ++ ['_']
        ++ pad2 h ++ pad2 mi ++ pad2 s := by
  simp [resizedName, splitext, rlastIdx, pad4, pad2]

theorem resized_pats_none (y mo d h mi s : Nat) :
    attempt pat1 (['R', 'e', 's', 'i', 'z', 'e', 'd', '_'] ++ pad4 y ++ pad2 mo ++ pad2 d ++ ['_']
      ++ pad2 h ++ pad2 mi ++ pad2 s) = none ∧
    attempt pat2 (['R', 'e', 's', 'i', 'z', 'e', 'd', '_'] ++ pad4 y ++ pad2 mo ++ pad2 d ++ ['_']
      ++ pad2 h ++ pad2 mi ++ pad2 s) = none ∧
    attempt pat3 (['R', 'e', 's', 'i', 'z', 'e', 'd', '_'] ++ pad4 y ++ pad2 mo ++ pad2 d ++ ['_']
      ++ pad2 h ++ pad2 mi ++ pad2 s) = none := by
  refine ⟨?_, ?_, ?_⟩
  · simp [attempt, pat1, searchAux, matchP1At_head_ne, matchP1At_nil, pad4, pad2]
  · simp [attempt, pat2, searchAux, matchTwoGroupAt_head_ne, matchTwoGroupAt_nil, pad4, pad2]
  · simp [attempt, pat3, searchAux, matchTwoGroupAt_head_ne, matchTwoGroupAt_nil, pad4, pad2]

theorem resized_pat4_some (y mo d h mi s : Nat) :
    pat4.search (['R', 'e', 's', 'i', 'z', 'e', 'd', '_'] ++ pad4 y ++ pad2 mo ++ pad2 d ++ ['_']
      ++ pad2 h ++ pad2 mi ++ pad2 s)
      = some (.two (pad4 y ++ pad2 mo ++ pad2 d) (pad2 h ++ pad2 mi ++ pad2 s)) := by
  simp [pat4, searchAux, matchTwoGroupAt, dropLit, takeDigits, pad4, pad2]

theorem resized_parse (y mo d h mi s : Nat) (hy1 : 1 ≤ y) (hy : y ≤ 9999)
    (hmo1 : 1 ≤ mo) (hmo : mo ≤ 12) (hd1 : 1 ≤ d) (hd : d ≤ daysInMonth y mo)
    (hh : h ≤ 23) (hmi : mi ≤ 59) (hs : s ≤ 59) :
    get_datetime (resizedName y mo d h mi s) = .ok ⟨y, mo, d, h, mi, s⟩ := by
  unfold get_datetime
  rw [resized_split]
  simp only [List.append_assoc]
  obtain ⟨p1, p2, p3⟩ := resized_pats_none y mo d h mi s
  have p4 := resized_pat4_some y mo d h mi s
  have hparse := strptime_pad6 y mo d h mi s hy1 hy hmo1 hmo hd1 hd hh hmi hs
  simp only [List.append_assoc] at p1 p2 p3 p4 hparse
  have p4' : attempt pat4 (['R', 'e', 's', 'i', 'z', 'e', 'd', '_'] ++ (pad4 y ++ (pad2 mo ++ (pad2 d
        ++ (['_'] ++ (pad2 h ++ (pad2 mi ++ pad2 s)))))))
      = some ⟨y, mo, d, h, mi, s⟩ := by
    rw [attempt, p4]
    simpa [buildStr, pat4, List.append_assoc] using hparse
  simp only [patterns, firstSuccess, p1, p2, p3, p4']

theorem ss_split (y mo d h mi s : Nat) :
    (splitext (ssName y mo d h mi s)).1.data
      = ['S', 'c', 'r', 'e', 'e', 'n', 's', 'h', 'o', 't', '_'] ++ pad4 y ++ pad2 mo ++ pad2 d
        ++ ['-'] ++ pad2 h ++ pad2 mi ++ pad2 s := by
  simp [ssName, splitext, rlastIdx, pad4, pad2]

theorem ss_pats_none (y mo d h mi s : Nat) :
    attempt pat1 (['S', 'c', 'r', 'e', 'e', 'n', 's', 'h', 'o', 't', '_'] ++ pad4 y ++ pad2 mo
      ++ pad2 d ++ ['-'] ++ pad2 h ++ pad2 mi ++ pad2 s) = none ∧
    attempt pat2 (['S', 'c', 'r', 'e', 'e', 'n', 's', 'h', 'o', 't', '_'] ++ pad4 y ++ pad2 mo
      ++ pad2 d ++ ['-'] ++ pad2 h ++ pad2 mi ++ pad2 s) = none ∧
    attempt pat3 (['S', 'c', 'r', 'e', 'e', 'n', 's', 'h', 'o', 't', '_'] ++ pad4 y ++ pad2 mo
      ++ pad2 d ++ ['-'] ++ pad2 h ++ pad2 mi ++ pad2 s) = none ∧
    attempt pat4 (['S', 'c', 'r', 'e', 'e', 'n', 's', 'h', 'o', 't', '_'] ++ pad4 y ++ pad2 mo
      ++ pad2 d ++ ['-'] ++ pad2 h ++ pad2 mi ++ pad2 s) = none := by
  refine ⟨?_, ?_, ?_, ?_⟩
  · simp [attempt, pat1, searchAux, matchP1At_head_ne, matchP1At_nil, pad4, pad2]
  · simp [attempt, pat2, searchAux, matchTwoGroupAt_head_ne, matchTwoGroupAt_nil, pad4, pad2]
  · simp [attempt, pat3, searchAux, matchTwoGroupAt_head_ne, matchTwoGroupAt_nil, pad4, pad2]
  · simp [attempt, pat4, searchAux, matchTwoGroupAt_head_ne, matchTwoGroupAt_nil, pad4, pad2]

theorem ss_pat5_some (y mo d h mi s : Nat) :
    pat5.search (['S', 'c', 'r', 'e', 'e', 'n', 's', 'h', 'o', 't', '_'] ++ pad4 y ++ pad2 mo
      ++ pad2 d ++ ['-'] ++ pad2 h ++ pad2 mi ++ pad2 s)
      = some (.two (pad4 y ++ pad2 mo ++ pad2 d) (pad2 h ++ pad2 mi ++ pad2 s)) := by
  simp [pat5, searchAux, matchTwoGroupAt, dropLit, takeDigits, pad4, pad2]

theorem ss_parse (y mo d h mi s : Nat) (hy1 : 1 ≤ y) (hy : y ≤ 9999)
    (hmo1 : 1 ≤ mo) (hmo : mo ≤ 12) (hd1 : 1 ≤ d) (hd : d ≤ daysInMonth y mo)
    (hh : h ≤ 23) (hmi : mi ≤ 59) (hs : s ≤ 59) :
    get_datetime (ssName y mo d h mi s) = .ok ⟨y, mo, d, h, mi, s⟩ := by
  unfold get_datetime
  rw [ss_split]
  simp only [List.append_assoc]
  obtain ⟨p1, p2, p3, p4⟩ := ss_pats_none y mo d h mi s
  have p5 := ss_pat5_some y mo d h mi s
  have hparse := strptime_pad6 y mo d h mi s hy1 hy hmo1 hmo hd1 hd hh hmi hs
  simp only [List.append_assoc] at p1 p2 p3 p4 p5 hparse
  have p5' : attempt pat5 (['S', 'c', 'r', 'e', 'e', 'n', 's', 'h', 'o', 't', '_'] ++ (pad4 y
        ++ (pad2 mo ++ (pad2 d ++ (['-'] ++ (pad2 h ++ (pad2 mi ++ pad2 s)))))))
      = some ⟨y, mo, d, h, mi, s⟩ := by
    rw [attempt, p5]
    simpa [buildStr, pat5, List.append_assoc] using hparse
  simp only [patterns, firstSuccess, p1, p2, p3, p4, p5']

theorem strptime_pad6_dm (y mo d h mi s : Nat)
    (hy1 : 1 ≤ y) (hy : y ≤ 9999) (hmo1 : 1 ≤ mo) (hmo : mo ≤ 12)
    (hd1 : 1 ≤ d) (hd : d ≤ daysInMonth y mo) (hh : h ≤ 23) (hmi : mi ≤ 59) (hs : s ≤ 59) :
    strptime .dmYHMS (pad2 d ++ pad2 mo ++ pad4 y ++ pad2 h ++ pad2 mi ++ pad2 s)
      = some ⟨y, mo, d, h, mi, s⟩ := by
  simp only [pad4, pad2, List.cons_append, List.nil_append, strptime, List.all_cons, List.all_nil,
    dchar_isDigit, Bool.and_self, Bool.and_true, Bool.true_and, if_true]
  rw [val4_dchar y hy, val2_dchar mo (by omega), val2_dchar d (by have := daysInMonth_le y mo; omega),
    val2_dchar h (by omega), val2_dchar mi (by omega), val2_dchar s (by omega)]
  rw [mkDT, if_pos]
  exact ⟨hy1, hy, hmo1, hmo, hd1, hd, hh, hmi, hs⟩

theorem cn_split (y mo d h mi s : Nat) :
    (splitext (cnName y mo d h mi s)).1.data
      = ['C', 'l', 'u', 'm', 's', 'y', 'N', 'i', 'n', 'j', 'a', '_'] ++ pad2 d ++ pad2 mo ++ pad4 y
        ++ ['_'] ++ pad2 h ++ pad2 mi ++ pad2 s := by
  simp [cnName, splitext, rlastIdx, pad4, pad2]

theorem cn_pats_none (y mo d h mi s : Nat) :
    attempt pat1 (['C', 'l', 'u', 'm', 's', 'y', 'N', 'i', 'n', 'j', 'a', '_'] ++ pad2 d ++ pad2 mo
      ++ pad4 y ++ ['_'] ++ pad2 h ++ pad2 mi ++ pad2 s) = none ∧
    attempt pat2 (['C', 'l', 'u', 'm', 's', 'y', 'N', 'i', 'n', 'j', 'a', '_'] ++ pad2 d ++ pad2 mo
      ++ pad4 y ++ ['_'] ++ pad2 h ++ pad2 mi ++ pad2 s) = none ∧
    attempt pat3 (['C', 'l', 'u', 'm', 's', 'y', 'N', 'i', 'n', 'j', 'a', '_'] ++ pad2 d ++ pad2 mo
      ++ pad4 y ++ ['_'] ++ pad2 h ++ pad2 mi ++ pad2 s) = none ∧
    attempt pat4 (['C', 'l', 'u', 'm', 's', 'y', 'N', 'i', 'n', 'j', 'a', '_'] ++ pad2 d ++ pad2 mo
      ++ pad4 y ++ ['_'] ++ pad2 h ++ pad2 mi ++ pad2 s) = none ∧
    attempt pat5 (['C', 'l', 'u', 'm', 's', 'y', 'N', 'i', 'n', 'j', 'a', '_'] ++ pad2 d ++ pad2 mo
      ++ pad4 y ++ ['_'] ++ pad2 h ++ pad2 mi ++ pad2 s) = none := by
  refine ⟨?_, ?_, ?_, ?_, ?_⟩
  · simp [attempt, pat1, searchAux, matchP1At_head_ne, matchP1At_nil, pad4, pad2]
  · simp [attempt, pat2, searchAux, matchTwoGroupAt_head_ne, matchTwoGroupAt_nil, pad4, pad2]
  · simp [attempt, pat3, searchAux, matchTwoGroupAt, matchTwoGroupAt_head_ne, matchTwoGroupAt_nil,
      dropLit, takeDigits, pad4, pad2]
  · simp [attempt, pat4, searchAux, matchTwoGroupAt_head_ne, matchTwoGroupAt_nil, pad4, pad2]
  · simp [attempt, pat5, searchAux, matchTwoGroupAt_head_ne, matchTwoGroupAt_nil, pad4, pad2]

theorem cn_pat6_some (y mo d h mi s : Nat) :
    pat6.search (['C', 'l', 'u', 'm', 's', 'y', 'N', 'i', 'n', 'j', 'a', '_'] ++ pad2 d ++ pad2 mo
      ++ pad4 y ++ ['_'] ++ pad2 h ++ pad2 mi ++ pad2 s)
      = some (.two (pad2 d ++ pad2 mo ++ pad4 y) (pad2 h ++ pad2 mi ++ pad2 s)) := by
  simp [pat6, searchAux, matchTwoGroupAt, dropLit, takeDigits, pad4, pad2]

theorem cn_parse (y mo d h mi s : Nat) (hy1 : 1 ≤ y) (hy : y ≤ 9999)
    (hmo1 : 1 ≤ mo) (hmo : mo ≤ 12) (hd1 : 1 ≤ d) (hd : d ≤ daysInMonth y mo)
    (hh : h ≤ 23) (hmi : mi ≤ 59) (hs : s ≤ 59) :
    get_datetime (cnName y mo d h mi s) = .ok ⟨y, mo, d, h, mi, s⟩ := by
  unfold get_datetime
  rw [cn_split]
  simp only [List.append_assoc]
  obtain ⟨p1, p2, p3, p4, p5⟩ := cn_pats_none y mo d h mi s
  have p6 := cn_pat6_some y mo d h mi s
  have hparse := strptime_pad6_dm y mo d h mi s hy1 hy hmo1 hmo hd1 hd hh hmi hs
  simp only [List.append_assoc] at p1 p2 p3 p4 p5 p6 hparse
  have p6' : attempt pat6 (['C', 'l', 'u', 'm', 's', 'y', 'N', 'i', 'n', 'j', 'a', '_'] ++ (pad2 d
        ++ (pad2 mo ++ (pad4 y ++ (['_'] ++ (pad2 h ++ (pad2 mi ++ pad2 s)))))))
      = some ⟨y, mo, d, h, mi, s⟩ := by
    rw [attempt, p6]
    simpa [buildStr, pat6, List.append_assoc] using hparse
  simp only [patterns, firstSuccess, p1, p2, p3, p4, p5, p6']

theorem strptime_pad6_dash (y mo d h mi s : Nat)
    (hy1 : 1 ≤ y) (hy : y ≤ 9999) (hmo1 : 1 ≤ mo) (hmo : mo ≤ 12)
    (hd1 : 1 ≤ d) (hd : d ≤ daysInMonth y mo) (hh : h ≤ 23) (hmi : mi ≤ 59) (hs : s ≤ 59) :
    strptime .YdashMdHMS (pad4 y ++ '-' :: (pad2 mo ++ '-' :: (pad2 d ++ '-' :: (pad2 h
        ++ '-' :: (pad2 mi ++ '-' :: pad2 s)))))
      = some ⟨y, mo, d, h, mi, s⟩ := by
  simp only [pad4, pad2, List.cons_append, List.nil_append, strptime, List.all_cons, List.all_nil,
    dchar_isDigit, Bool.and_self, Bool.and_true, Bool.true_and, if_true]
  rw [val4_dchar y hy, val2_dchar mo (by omega), val2_dchar d (by have := daysInMonth_le y mo; omega),
    val2_dchar h (by omega), val2_dchar mi (by omega), val2_dchar s (by omega)]
  rw [mkDT, if_pos]
  exact ⟨hy1, hy, hmo1, hmo, hd1, hd, hh, hmi, hs⟩

theorem ssdash_split (y mo d h mi s : Nat) :
    (splitext (ssDashName y mo d h mi s)).1.data
      = ['S', 'c', 'r', 'e', 'e', 'n', 's', 'h', 'o', 't', '_'] ++ pad4 y ++ ['-'] ++ pad2 mo
        ++ ['-'] ++ pad2 d ++ ['-'] ++ pad2 h ++ ['-'] ++ pad2 mi ++ ['-'] ++ pad2 s := by
  simp [ssDashName, splitext, rlastIdx, pad4, pad2]

theorem matchTwoGroup_ss_4digits (a b c d : Nat) (rest : List Char) :
    matchTwoGroupAt ['S', 'c', 'r', 'e', 'e', 'n', 's', 'h', 'o', 't', '_'] '-'
      ('S' :: 'c' :: 'r' :: 'e' :: 'e' :: 'n' :: 's' :: 'h' :: 'o' :: 't' :: '_'
        :: dchar a :: dchar b :: dchar c :: dchar d :: '-' :: rest) = none := by
  simp [matchTwoGroupAt, dropLit, takeDigits]

set_option maxHeartbeats 1000000 in
theorem ssdash_pats_none (y mo d h mi s : Nat) :
    attempt pat1 (['S', 'c', 'r', 'e', 'e', 'n', 's', 'h', 'o', 't', '_'] ++ pad4 y ++ ['-']
      ++ pad2 mo ++ ['-'] ++ pad2 d ++ ['-'] ++ pad2 h ++ ['-'] ++ pad2 mi ++ ['-'] ++ pad2 s)
      = none ∧
    attempt pat2 (['S', 'c', 'r', 'e', 'e', 'n', 's', 'h', 'o', 't', '_'] ++ pad4 y ++ ['-']
      ++ pad2 mo ++ ['-'] ++ pad2 d ++ ['-'] ++ pad2 h ++ ['-'] ++ pad2 mi ++ ['-'] ++ pad2 s)
      = none ∧
    attempt pat3 (['S', 'c', 'r', 'e', 'e', 'n', 's', 'h', 'o', 't', '_'] ++ pad4 y ++ ['-']
      ++ pad2 mo ++ ['-'] ++ pad2 d ++ ['-'] ++ pad2 h ++ ['-'] ++ pad2 mi ++ ['-'] ++ pad2 s)
      = none ∧
    attempt pat4 (['S', 'c', 'r', 'e', 'e', 'n', 's', 'h', 'o', 't', '_'] ++ pad4 y ++ ['-']
      ++ pad2 mo ++ ['-'] ++ pad2 d ++ ['-'] ++ pad2 h ++ ['-'] ++ pad2 mi ++ ['-'] ++ pad2 s)
      = none ∧
    attempt pat5 (['S', 'c', 'r', 'e', 'e', 'n', 's', 'h', 'o', 't', '_'] ++ pad4 y ++ ['-']
      ++ pad2 mo ++ ['-'] ++ pad2 d ++ ['-'] ++ pad2 h ++ ['-'] ++ pad2 mi ++ ['-'] ++ pad2 s)
      = none ∧
    attempt pat6 (['S', 'c', 'r', 'e', 'e', 'n', 's', 'h', 'o', 't', '_'] ++ pad4 y ++ ['-']
      ++ pad2 mo ++ ['-'] ++ pad2 d ++ ['-'] ++ pad2 h ++ ['-'] ++ pad2 mi ++ ['-'] ++ pad2 s)
      = none := by
  refine ⟨?_, ?_, ?_, ?_, ?_, ?_⟩ <;>
    simp only [pad4, pad2, List.cons_append, List.nil_append, List.append_nil]
  · simp [attempt, pat1, searchAux, matchP1At_head_ne, matchP1At_nil]
  · simp [attempt, pat2, searchAux, matchTwoGroupAt_head_ne, matchTwoGroupAt_nil]
  · simp [attempt, pat3, searchAux, matchTwoGroupAt_head_ne, matchTwoGroupAt_nil]
  · simp [attempt, pat4, searchAux, matchTwoGroupAt_head_ne, matchTwoGroupAt_nil]
  · simp [attempt, pat5, searchAux, matchTwoGroup_ss_4digits, matchTwoGroupAt_head_ne,
      matchTwoGroupAt_nil]
  · simp [attempt, pat6, searchAux, matchTwoGroupAt_head_ne, matchTwoGroupAt_nil]

theorem ssdash_pat7_some (y mo d h mi s : Nat) :
    pat7.search (['S', 'c', 'r', 'e', 'e', 'n', 's', 'h', 'o', 't', '_'] ++ pad4 y ++ ['-']
      ++ pad2 mo ++ ['-'] ++ pad2 d ++ ['-'] ++ pad2 h ++ ['-'] ++ pad2 mi ++ ['-'] ++ pad2 s)
      = some (.one (pad4 y ++ '-' :: (pad2 mo ++ '-' :: (pad2 d ++ '-' :: (pad2 h
          ++ '-' :: (pad2 mi ++ '-' :: pad2 s)))))) := by
  simp [pat7, searchAux, matchP7At, dropLit, takeDigits, pad4, pad2]

theorem ssdash_parse (y mo d h mi s : Nat) (hy1 : 1 ≤ y) (hy : y ≤ 9999)
    (hmo1 : 1 ≤ mo) (hmo : mo ≤ 12) (hd1 : 1 ≤ d) (hd : d ≤ daysInMonth y mo)
    (hh : h ≤ 23) (hmi : mi ≤ 59) (hs : s ≤ 59) :
    get_datetime (ssDashName y mo d h mi s) = .ok ⟨y, mo, d, h, mi, s⟩ := by
  unfold get_datetime
  rw [ssdash_split]
  simp only [List.append_assoc]
  obtain ⟨p1, p2, p3, p4, p5, p6⟩ := ssdash_pats_none y mo d h mi s
  have p7 := ssdash_pat7_some y mo d h mi s
  have hparse := strptime_pad6_dash y mo d h mi s hy1 hy hmo1 hmo hd1 hd hh hmi hs
  simp only [List.append_assoc] at p1 p2 p3 p4 p5 p6 p7 hparse
  have p7' : attempt pat7 (['S', 'c', 'r', 'e', 'e', 'n', 's', 'h', 'o', 't', '_'] ++ (pad4 y
        ++ (['-'] ++ (pad2 mo ++ (['-'] ++ (pad2 d ++ (['-'] ++ (pad2 h ++ (['-'] ++ (pad2 mi
        ++ (['-'] ++ pad2 s)))))))))))
      = some ⟨y, mo, d, h, mi, s⟩ := by
    rw [attempt, p7]
    have hlen : (pad4 y ++ '-' :: (pad2 mo ++ '-' :: (pad2 d ++ '-' :: (pad2 h
        ++ '-' :: (pad2 mi ++ '-' :: pad2 s))))).length = 19 := by
      simp [pad4, pad2]
    simp only [Option.bind, buildStr, pat7, hlen]
    simpa [List.append_assoc] using hparse
  simp only [patterns, firstSuccess, p1, p2, p3, p4, p5, p6, p7']

/-- C5: for every pattern family the parser recognizes — WhatsApp
`IMG-...-WA####` (date-only, midnight), Google-Photos `IMG_`, `mms_`,
`Resized_`, both `Screenshot_` variants, and the day/month-swapped
`ClumsyNinja_` — and all valid calendar values, the returned timestamp's
fields equal the digits embedded in the filename; in particular the two
documented examples. -/
theorem c5_known_patterns_field_exact :
    (∀ y mo d : Nat, 1 ≤ y → y ≤ 9999 → 1 ≤ mo → mo ≤ 12 → 1 ≤ d → d ≤ daysInMonth y mo →
       get_datetime (waName y mo d) = .ok ⟨y, mo, d, 0, 0, 0⟩) ∧
    (∀ y mo d h mi s : Nat, 1 ≤ y → y ≤ 9999 → 1 ≤ mo → mo ≤ 12 → 1 ≤ d → d ≤ daysInMonth y mo →
       h ≤ 23 → mi ≤ 59 → s ≤ 59 →
       get_datetime (gpName y mo d h mi s) = .ok ⟨y, mo, d, h, mi, s⟩) ∧
    (∀ y mo d h mi s : Nat, 1 ≤ y → y ≤ 9999 → 1 ≤ mo → mo ≤ 12 → 1 ≤ d → d ≤ daysInMonth y mo →
       h ≤ 23 → mi ≤ 59 → s ≤ 59 →
       get_datetime (mmsName y mo d h mi s) = .ok ⟨y, mo, d, h, mi, s⟩) ∧
    (∀ y mo d h mi s : Nat, 1 ≤ y → y ≤ 9999 → 1 ≤ mo → mo ≤ 12 → 1 ≤ d → d ≤ daysInMonth y mo →
       h ≤ 23 → mi ≤ 59 → s ≤ 59 →
       get_datetime (resizedName y mo d h mi s) = .ok ⟨y, mo, d, h, mi, s⟩) ∧
    (∀ y mo d h mi s : Nat, 1 ≤ y → y ≤ 9999 → 1 ≤ mo → mo ≤ 12 → 1 ≤ d → d ≤ daysInMonth y mo →
       h ≤ 23 → mi ≤ 59 → s ≤ 59 →
       get_datetime (ssName y mo d h mi s) = .ok ⟨y, mo, d, h, mi, s⟩) ∧
    (∀ y mo d h mi s : Nat, 1 ≤ y → y ≤ 9999 → 1 ≤ mo → mo ≤ 12 → 1 ≤ d → d ≤ daysInMonth y mo →
       h ≤ 23 → mi ≤ 59 → s ≤ 59 →
       get_datetime (ssDashName y mo d h mi s) = .ok ⟨y, mo, d, h, mi, s⟩) ∧
    (∀ y mo d h mi s : Nat, 1 ≤ y → y ≤ 9999 → 1 ≤ mo → mo ≤ 12 → 1 ≤ d → d ≤ daysInMonth y mo →
       h ≤ 23 → mi ≤ 59 → s ≤ 59 →
       get_datetime (cnName y mo d h mi s) = .ok ⟨y, mo, d, h, mi, s⟩) ∧
    get_datetime "IMG-20210315-WA0007.jpg" = .ok ⟨2021, 3, 15, 0, 0, 0⟩ ∧
    get_datetime "IMG_20210315_143000_001.jpg" = .ok ⟨2021, 3, 15, 14, 30, 0⟩ :=
  ⟨fun y mo d h1 h2 h3 h4 h5 h6 => wa_parse y mo d h1 h2 h3 h4 h5 h6,
   fun y mo d h mi s h1 h2 h3 h4 h5 h6 h7 h8 h9 =>
     gp_parse y mo d h mi s h1 h2 h3 h4 h5 h6 h7 h8 h9,
   fun y mo d h mi s h1 h2 h3 h4 h5 h6 h7 h8 h9 =>
     mms_parse y mo d h mi s h1 h2 h3 h4 h5 h6 h7 h8 h9,
   fun y mo d h mi s h1 h2 h3 h4 h5 h6 h7 h8 h9 =>
     resized_parse y mo d h mi s h1 h2 h3 h4 h5 h6 h7 h8 h9,
   fun y mo d h mi s h1 h2 h3 h4 h5 h6 h7 h8 h9 =>
     ss_parse y mo d h mi s h1 h2 h3 h4 h5 h6 h7 h8 h9,
   fun y mo d h mi s h1 h2 h3 h4 h5 h6 h7 h8 h9 =>
     ssdash_parse y mo d h mi s h1 h2 h3 h4 h5 h6 h7 h8 h9,
   fun y mo d h mi s h1 h2 h3 h4 h5 h6 h7 h8 h9 =>
     cn_parse y mo d h mi s h1 h2 h3 h4 h5 h6 h7 h8 h9,
   rfl, rfl⟩

/-- C5 witness. -/
theorem c5_known_patterns_field_exact_witness :
    get_datetime (waName 2021 3 15) = .ok ⟨2021, 3, 15, 0, 0, 0⟩ ∧
    get_datetime (gpName 2021 3 15 14 30 0) = .ok ⟨2021, 3, 15, 14, 30, 0⟩ ∧
    get_datetime (mmsName 2021 3 15 14 30 0) = .ok ⟨2021, 3, 15, 14, 30, 0⟩ ∧
    get_datetime (resizedName 2021 3 15 14 30 0) = .ok ⟨2021, 3, 15, 14, 30, 0⟩ ∧
    get_datetime (ssName 2021 3 15 14 30 0) = .ok ⟨2021, 3, 15, 14, 30, 0⟩ ∧
    get_datetime (ssDashName 2021 3 15 14 30 0) = .ok ⟨2021, 3, 15, 14, 30, 0⟩ ∧
    get_datetime (cnName 2021 3 15 14 30 0) = .ok ⟨2021, 3, 15, 14, 30, 0⟩ :=
  ⟨c5_known_patterns_field_exact.1 2021 3 15 (by decide) (by decide) (by decide) (by decide)
     (by decide) (by decide),
   c5_known_patterns_field_exact.2.1 2021 3 15 14 30 0 (by decide) (by decide) (by decide)
     (by decide) (by decide) (by decide) (by decide) (by decide) (by decide),
   c5_known_patterns_field_exact.2.2.1 2021 3 15 14 30 0 (by decide) (by decide) (by decide)
     (by decide) (by decide) (by decide) (by decide) (by decide) (by decide),
   c5_known_patterns_field_exact.2.2.2.1 2021 3 15 14 30 0 (by decide) (by decide) (by decide)
     (by decide) (by decide) (by decide) (by decide) (by decide) (by decide),
   c5_known_patterns_field_exact.2.2.2.2.1 2021 3 15 14 30 0 (by decide) (by decide) (by decide)
     (by decide) (by decide) (by decide) (by decide) (by decide) (by decide),
   c5_known_patterns_field_exact.2.2.2.2.2.1 2021 3 15 14 30 0 (by decide) (by decide) (by decide)
     (by decide) (by decide) (by decide) (by decide) (by decide) (by decide),
   c5_known_patterns_field_exact.2.2.2.2.2.2.1 2021 3 15 14 30 0 (by decide) (by decide)
     (by decide) (by decide) (by decide) (by decide) (by decide) (by decide) (by decide)⟩

end RestoreExif